import Mathlib

/-!
Verification development for the reefer-plan stability service
(`src/stability-service/main.py`).

The service is a single FastAPI endpoint:

    @app.post("/calculate-stability")
    async def calculate_stability(data: dict):
        # Aquí irán los cálculos
        return {
            "displacement": 8000,
            "estimatedGM": 1.5,
            "estimatedTrim": 0.2
        }

We embed JSON values shallowly (numbers as rationals), translate the
handler, and model the HTTP layer as a status/body pair: FastAPI returns
status 200 for a handler that returns a dict without raising.
-/

/-- JSON values.  Numbers are modelled as rationals (the Python literals
`8000`, `1.5`, `0.2` are exactly representable). -/
inductive Json : Type where
  | num (q : ℚ)
  | str (s : String)
  | bool (b : Bool)
  | null
  | arr (xs : List Json)
  | obj (fields : List (String × Json))

/-- Lookup of a key in an association list of object fields
(Python `dict` access / `in` test on the first matching key). -/
def lookupField : List (String × Json) → String → Option Json
  | [], _ => none
  | (k, v) :: rest, key => if k = key then some v else lookupField rest key

/-- Field access on a JSON value: defined on objects, `none` otherwise. -/
def getField (j : Json) (key : String) : Option Json :=
  match j with
  | Json.obj fields => lookupField fields key
  | _ => none

/-- The keys of a JSON object, in order. -/
def keysOf : Json → List String
  | Json.obj fields => fields.map Prod.fst
  | _ => []

/-- The handler `calculate_stability` from `src/stability-service/main.py`:
it ignores its `data` argument and returns the literal dict
`{"displacement": 8000, "estimatedGM": 1.5, "estimatedTrim": 0.2}`. -/
def calculate_stability (data : Json) : Json :=
  Json.obj
    [ ("displacement", Json.num 8000),
      ("estimatedGM", Json.num 1.5),
      ("estimatedTrim", Json.num 0.2) ]

/-- An HTTP response: status code and JSON body. -/
structure HttpResponse : Type where
  status : Nat
  body : Json

/-- The `POST /calculate-stability` route: FastAPI invokes the handler on
the parsed dict payload and, since the handler returns normally, wraps the
returned dict in a 200 response. -/
def postCalculateStability (data : Json) : HttpResponse :=
  { status := 200, body := calculate_stability data }

/-- A run of the service on a sequence of requests.  The application holds
no state (`app = FastAPI()` carries nothing the handler reads or writes),
so serving is a map of the handler over the request sequence. -/
def serve : List Json → List Json
  | [] => []
  | d :: ds => calculate_stability d :: serve ds

/-- Concrete valid payload omitting `cargo_distribution` (spec example
scenario, §8). -/
def inputNoCargo : Json :=
  Json.obj
    [ ("displacement_tonnes", Json.num 8000),
      ("center_of_gravity_height", Json.num 6),
      ("center_of_buoyancy_height", Json.num 7.5),
      ("beam", Json.num 20) ]

/-- Concrete valid payload with equal centre of buoyancy and centre of
gravity and no `beam` field, so the beam-derived metacentric radius BM is
zero. -/
def inputEqualCenters : Json :=
  Json.obj
    [ ("displacement_tonnes", Json.num 8000),
      ("center_of_gravity_height", Json.num 5),
      ("center_of_buoyancy_height", Json.num 5) ]

/-- Concrete valid payload whose `displacement_tonnes` is 5000. -/
def inputDisp5000 : Json :=
  Json.obj
    [ ("displacement_tonnes", Json.num 5000),
      ("center_of_gravity_height", Json.num 6),
      ("center_of_buoyancy_height", Json.num 7.5) ]

/-- Concrete payload violating the non-negativity invariant:
`displacement_tonnes` is -5. -/
def inputNegDisp : Json :=
  Json.obj
    [ ("displacement_tonnes", Json.num (-5)),
      ("center_of_gravity_height", Json.num 6),
      ("center_of_buoyancy_height", Json.num 7.5) ]

/-- Claim C1: for every request payload, the handler performs no
computation on the input and returns the fixed constants
displacement = 8000, estimatedGM = 1.5, estimatedTrim = 0.2. -/
theorem calculate_stability_is_constant_stub (data : Json) :
    calculate_stability data =
      Json.obj
        [ ("displacement", Json.num 8000),
          ("estimatedGM", Json.num 1.5),
          ("estimatedTrim", Json.num 0.2) ] := rfl

/-- Claim C2 (code evaluated at the failing input): the empty payload has
no `displacement_tonnes` field, yet the endpoint answers 200 with
`displacement` silently set to the default 8000 — never a validation
failure. -/
theorem missing_displacement_gets_default_8000 :
    getField (Json.obj []) "displacement_tonnes" = none ∧
    (postCalculateStability (Json.obj [])).status = 200 ∧
    getField (postCalculateStability (Json.obj [])).body "displacement" =
      some (Json.num 8000) :=
  ⟨rfl, rfl, rfl⟩

/-- Claim C3 (code evaluated at the failing input): a valid payload that
omits `cargo_distribution` receives estimatedTrim = 0.2, not 0.0. -/
theorem omitted_cargo_distribution_trim_not_zero :
    getField inputNoCargo "cargo_distribution" = none ∧
    getField (calculate_stability inputNoCargo) "estimatedTrim" =
      some (Json.num 0.2) ∧
    (0.2 : ℚ) ≠ 0 :=
  ⟨rfl, rfl, by norm_num⟩

/-- Claim C4 (code evaluated at the failing input): with equal centres of
buoyancy and gravity and zero beam-derived BM, the returned estimatedGM is
the constant 1.5, not 0. -/
theorem equal_centers_gm_not_zero :
    getField inputEqualCenters "center_of_buoyancy_height" =
      getField inputEqualCenters "center_of_gravity_height" ∧
    getField inputEqualCenters "beam" = none ∧
    getField (calculate_stability inputEqualCenters) "estimatedGM" =
      some (Json.num 1.5) ∧
    (1.5 : ℚ) ≠ 0 :=
  ⟨rfl, rfl, rfl, by norm_num⟩

/-- Claim C5 (code evaluated at the failing input): for a payload with
`displacement_tonnes` = 5000 the returned `displacement` is 8000, so the
result is not computed from the input. -/
theorem displacement_not_passed_through :
    getField inputDisp5000 "displacement_tonnes" = some (Json.num 5000) ∧
    getField (calculate_stability inputDisp5000) "displacement" =
      some (Json.num 8000) ∧
    (8000 : ℚ) ≠ 5000 :=
  ⟨rfl, rfl, by norm_num⟩

/-- Claim C6: the handler is a pure, deterministic function — after any
request history, two invocations with the identical input yield identical
responses, with no hidden state affecting the result. -/
theorem serve_pure_no_hidden_state (ds : List Json) (d : Json) :
    serve (ds ++ [d, d]) =
      serve ds ++ [calculate_stability d, calculate_stability d] := by
  induction ds with
  | nil => rfl
  | cons x xs ih => simp [serve, ih]

/-- Claim C7: every returned result carries a non-negative `displacement`
(the handler always returns the constant 8000 ≥ 0; no input is ever
rejected, but no result carries a negative displacement). -/
theorem displacement_always_nonneg (data : Json) :
    ∃ q : ℚ, getField (calculate_stability data) "displacement" =
      some (Json.num q) ∧ 0 ≤ q :=
  ⟨8000, rfl, by norm_num⟩

/-- Claim C8 (code evaluated at the failing input): the invariant-violating
payload with `displacement_tonnes` = -5 is answered with status 200 and the
full constant result, not 422 or 400. -/
theorem negative_displacement_accepted_200 :
    getField inputNegDisp "displacement_tonnes" = some (Json.num (-5)) ∧
    ((-5 : ℚ) < 0) ∧
    (postCalculateStability inputNegDisp).status = 200 ∧
    (postCalculateStability inputNegDisp).status ≠ 422 ∧
    (postCalculateStability inputNegDisp).status ≠ 400 :=
  ⟨rfl, by norm_num, rfl, by decide, by decide⟩

/-- Claim C9: noninterference — any two request payloads receive identical
responses; no field of the input influences any field of the output. -/
theorem response_noninterference (d₁ d₂ : Json) :
    calculate_stability d₁ = calculate_stability d₂ := rfl

/-- Claim C10: totality — the handler (a total Lean function) returns, for
every payload, an object whose keys are exactly `displacement`,
`estimatedGM`, `estimatedTrim`. -/
theorem handler_total_three_keys (data : Json) :
    keysOf (calculate_stability data) =
      ["displacement", "estimatedGM", "estimatedTrim"] := rfl
